import Mathlib

/-
Verification of the native print module
(src/apps/restaurant-management-system/src-tauri/src/print.rs).

The module discovers printers and submits HTML print jobs, with one
implementation per platform family:
  - Unix (macOS/Linux): lpstat for enumeration, lp for submission;
  - Windows: PowerShell Get-Printer for enumeration, a generated
    PowerShell script for submission.

Shallow embedding conventions:
  - External processes are oracles: a spawned process either fails to
    spawn (modelled as none) or yields a ProcOutput carrying exit-status
    success, stdout and stderr already decoded to text (the Rust code
    decodes with from_utf8_lossy, so the parsers only ever see text).
  - Rust string scanning (split, split_whitespace, contains,
    starts_with, trim) is embedded as structurally recursive functions
    over List Char mirroring the Rust semantics, so every definition
    evaluates by kernel reduction.
  - u32 values (copies, paper_width) are modelled as Nat: the code only
    compares them and renders them in decimal, never does arithmetic, so
    wrap-around is unreachable.
  - The filesystem lifecycle of the temporary payload file is modelled
    as an explicit event trace (create / write / exec / delete); Rust's
    NamedTempFile deletes the file when it is dropped, i.e. on every
    return path of the function that owns it, which the embedding
    renders by ending every post-creation trace with the delete event.
  - serde_json (an external crate) is modelled as an oracle pair of
    parse functions supplied by the environment; the module's fallback
    logic around those calls is embedded exactly.
-/

/-! ## Data model (print.rs lines 13-48) -/

/-- Information about an available printer (struct PrinterInfo). -/
structure PrinterInfo where
  name : String
  is_default : Bool
  description : Option String
  status : Option String
  deriving DecidableEq

/-- Result of a print operation (struct PrintResult). -/
structure PrintResult where
  success : Bool
  error : Option String
  job_id : Option String
  deriving DecidableEq

/-- Options for printing (struct PrintOptions); u32 fields as Nat. -/
structure PrintOptions where
  printer : Option String
  copies : Option Nat
  silent : Option Bool
  paper_width : Option Nat

/-- Captured outcome of a process that did spawn: exit-status success
flag plus stdout/stderr decoded to text (from_utf8_lossy). -/
structure ProcOutput where
  success : Bool
  stdout : String
  stderr : String

/-- The defaults print_html substitutes when options is None
(print.rs lines 81-86). -/
def defaultPrintOptions : PrintOptions :=
  { printer := none, copies := some 1, silent := some true, paper_width := some 80 }

/-! ## Character-list models of the Rust string primitives -/

/-- pat is a leading segment of l (char-by-char match at the head). -/
def leadMatch : List Char → List Char → Bool
  | [], _ => true
  | _ :: _, [] => false
  | a :: as, b :: bs => a == b && leadMatch as bs

/-- Rust str::contains for string patterns: pat occurs somewhere in l
(the empty pattern occurs in every string). -/
def subMatch (pat : List Char) : List Char → Bool
  | [] => pat.isEmpty
  | l@(_ :: bs) => leadMatch pat l || subMatch pat bs

/-- Rust str::split on a single separator char: "".split(c) = [""],
and every separator occurrence starts a new segment. -/
def splitOnChar (sep : Char) : List Char → List (List Char)
  | [] => [[]]
  | c :: rest =>
    if c == sep then [] :: splitOnChar sep rest
    else
      match splitOnChar sep rest with
      | [] => [[c]]
      | seg :: segs => (c :: seg) :: segs

/-- Everything after the first occurrence of sep in l (the scan Rust's
str::split performs to produce its second element); none when sep does
not occur. -/
def afterFirst (sep : List Char) : List Char → Option (List Char)
  | [] => if leadMatch sep [] then some [] else none
  | c :: rest =>
    if leadMatch sep (c :: rest) then some ((c :: rest).drop sep.length)
    else afterFirst sep rest

/-- The segment of l before the next occurrence of sep (all of l when
sep does not occur): together with afterFirst this reproduces
split(sep).nth(1), the text strictly between the first occurrence of
sep and the following one. -/
def uptoFirst (sep : List Char) : List Char → List Char
  | [] => []
  | c :: rest =>
    if leadMatch sep (c :: rest) then []
    else c :: uptoFirst sep rest

/-- Split at every whitespace char (keeping empty segments); the
whitespace model is Char.isWhitespace, matching the ASCII whitespace
Rust's char::is_whitespace recognizes on this module's inputs. -/
def splitByWs : List Char → List (List Char)
  | [] => [[]]
  | c :: rest =>
    if c.isWhitespace then [] :: splitByWs rest
    else
      match splitByWs rest with
      | [] => [[c]]
      | seg :: segs => (c :: seg) :: segs

/-- Rust str::split_whitespace: maximal non-empty runs of
non-whitespace chars. -/
def whitespaceTokens (l : List Char) : List (List Char) :=
  (splitByWs l).filter (fun t => !t.isEmpty)

/-- Rust str::trim over a char list. -/
def trimChars (l : List Char) : List Char :=
  ((l.dropWhile Char.isWhitespace).reverse.dropWhile Char.isWhitespace).reverse

/-- Rust's line iterator str::lines: split on newline, drop one final
empty segment produced by a trailing newline, strip one trailing
carriage return per line. -/
def stripCR (l : List Char) : List Char :=
  if l.getLast? = some (Char.ofNat 13) then l.dropLast else l

/-- str::lines over a String, producing Strings. -/
def rustLines (s : String) : List String :=
  let parts := splitOnChar (Char.ofNat 10) s.data
  let parts := if parts.getLast? = some [] then parts.dropLast else parts
  parts.map (fun l => String.mk (stripCR l))

/-! ## Unix enumeration (print.rs lines 103-157) -/

/-- Parse of the default-printer query `lpstat -d` (lines 111-115):
split stdout on the colon char, take the second piece, trim it; the
empty string when there is no second piece. -/
def parseDefaultPrinter (stdout : String) : String :=
  match (splitOnChar ':' stdout.data).get? 1 with
  | some seg => String.mk (trimChars seg)
  | none => ""

/-- Parse of one `lpstat -p` output line (lines 126-148): a line
starting with "printer " whose second whitespace token is the name;
is_default is exact equality with the default-printer name; status is
the first match of the substring heuristics "idle" then "printing". -/
def parsePrinterLine (default_printer : String) (line : String) : Option PrinterInfo :=
  if leadMatch "printer ".data line.data then
    match whitespaceTokens line.data with
    | _ :: nameChars :: _ =>
      some { name := String.mk nameChars
             is_default := String.mk nameChars == default_printer
             description := none
             status :=
               if subMatch "idle".data line.data then some "idle"
               else if subMatch "printing".data line.data then some "printing"
               else none }
    | _ => none
  else none

/-- get_printers_unix (lines 104-157): dRes is the spawn outcome of
`lpstat -d`, pRes of `lpstat -p` (none = the command could not be
spawned). Exit status is never inspected, only stdout is parsed; an
empty parse yields Ok []. -/
def get_printers_unix (dRes pRes : Option ProcOutput) :
    Except String (List PrinterInfo) :=
  match dRes with
  | none => Except.error "Failed to get default printer"
  | some d =>
    let default_printer := parseDefaultPrinter d.stdout
    match pRes with
    | none => Except.error "Failed to list printers"
    | some p =>
      Except.ok ((rustLines p.stdout).filterMap (parsePrinterLine default_printer))

/-! ## Unix submission (print.rs lines 159-233) -/

/-- The printer-selection segment of the lp argument list
(lines 174-177). -/
def lpPrinterArgs (options : PrintOptions) : List String :=
  match options.printer with
  | some printer => ["-d", printer]
  | none => []

/-- The copies segment of the lp argument list (lines 180-184):
emitted only when copies (default 1) exceeds 1. -/
def lpCopiesArgs (options : PrintOptions) : List String :=
  let copies := options.copies.getD 1
  if copies > 1 then ["-n", toString copies] else []

/-- The media segment of the lp argument list (lines 188-195): fixed
directives for widths 80 and 58, nothing otherwise. -/
def lpMediaArgs (options : PrintOptions) : List String :=
  let paper_width := options.paper_width.getD 80
  if paper_width == 80 then ["-o", "media=Custom.80x200mm"]
  else if paper_width == 58 then ["-o", "media=Custom.58x200mm"]
  else []

/-- The full lp argument list (lines 171-202): printer, copies, media,
the always-present fit-to-page option, then the temp-file path. -/
def buildLpArgs (options : PrintOptions) (path : String) : List String :=
  lpPrinterArgs options ++ lpCopiesArgs options ++ lpMediaArgs options ++
    ["-o", "fit-to-page", path]

/-- The marker the job-id scraper looks for in lp stdout (line 215). -/
def unixJobIdMarker : List Char := "request id is ".data

/-- Job-id extraction (lines 214-218):
stdout.split("request id is ").nth(1).and_then(split_whitespace().next()):
the first whitespace token of the text strictly between the first
marker occurrence and the next one (or end of output); none when the
marker is absent. -/
def extractJobId (stdout : String) : Option String :=
  (afterFirst unixJobIdMarker stdout.data).bind
    (fun rem => ((whitespaceTokens (uptoFirst unixJobIdMarker rem)).head?).map String.mk)

/-- The PrintResult the Unix path builds from the lp process output
(lines 211-232): success mirrors the exit status; on success the error
is None and the job id is scraped from stdout; on failure the error is
the raw captured stderr and the job id is None. -/
def unixPrintResult (out : ProcOutput) : PrintResult :=
  if out.success then
    { success := true, error := none, job_id := extractJobId out.stdout }
  else
    { success := false, error := some out.stderr, job_id := none }

/-! ## Windows enumeration (print.rs lines 239-291) -/

/-- The deserialized shape of one Get-Printer JSON record
(struct WinPrinter, lines 263-271). -/
structure WinPrinter where
  name : String
  driver_name : Option String
  default : Option Bool

/-- Environment of get_printers_windows: the PowerShell spawn outcome,
plus the two serde_json parse attempts (Vec first, then single object)
as oracles over the stdout text. -/
structure WinEnumEnv where
  spawn : Option ProcOutput
  parseArray : String → Option (List WinPrinter)
  parseSingle : String → Option WinPrinter

/-- Conversion of one parsed record to PrinterInfo (lines 280-288). -/
def winPrinterInfo (p : WinPrinter) : PrinterInfo :=
  { name := p.name
    is_default := p.default.getD false
    description := p.driver_name
    status := none }

/-- get_printers_windows (lines 240-291): Err on spawn failure; Err on
nonzero exit status; Ok [] on empty (trimmed) stdout; otherwise parse
as array, fall back to single object, Err when both parses fail. -/
def get_printers_windows (env : WinEnumEnv) : Except String (List PrinterInfo) :=
  match env.spawn with
  | none => Except.error "Failed to get printers"
  | some out =>
    if !out.success then
      Except.error ("PowerShell command failed: " ++ out.stderr)
    else if (trimChars out.stdout.data).isEmpty then
      Except.ok []
    else
      match env.parseArray out.stdout with
      | some ps => Except.ok (ps.map winPrinterInfo)
      | none =>
        match env.parseSingle out.stdout with
        | some p => Except.ok ([p].map winPrinterInfo)
        | none =>
          Except.error ("Failed to parse printer list - Output: " ++ out.stdout)

/-- True exactly on the error constructor. -/
def exceptIsErr : Except String (List PrinterInfo) → Bool
  | Except.error _ => true
  | Except.ok _ => false

/-! ## Windows submission (print.rs lines 293-391) -/

/-- Doubling of every backslash, the sanitation the Windows path applies
to the temp-file path before interpolating it into the PowerShell
script (file_path.replace of one backslash by two, lines 351 and 360;
the pattern is a single char, so the replacement is per-character). -/
def escChars : List Char → List Char
  | [] => []
  | c :: rest => (if c == '\\' then ['\\', '\\'] else [c]) ++ escChars rest

/-- escChars lifted to String. -/
def escapeBackslashes (s : String) : String := String.mk (escChars s.data)

/-- Literal chunks of the styled-HTML template (lines 303-326); the
requested paper width is interpolated twice, the payload once. -/
def winHtmlA : String := "<!DOCTYPE html>\n<html>\n<head>\n<style>\n@page \x7b\n    size: "

def winHtmlB : String := "mm auto;\n    margin: 0;\n\x7d\n@media print \x7b\n    body \x7b\n        width: "

def winHtmlC : String := "mm;\n        margin: 0;\n        padding: 2mm;\n    \x7d\n\x7d\n</style>\n</head>\n<body>\n"

def winHtmlD : String := "\n</body>\n</html>"

/-- styled_html (lines 302-326): the payload wrapped with page-size CSS
carrying the requested paper width (default 80). -/
def windowsStyledHtml (html : String) (paper_width : Nat) : String :=
  winHtmlA ++ toString paper_width ++ winHtmlB ++ toString paper_width ++
    winHtmlC ++ html ++ winHtmlD

/-- Literal chunks of the printer-targeted PowerShell script
(lines 339-353): Navigate to the escaped path, busy-wait, then a print
loop bounded by the copies count. -/
def winScriptA : String := "\n            $ie = New-Object -ComObject InternetExplorer.Application\n            $ie.Visible = $false\n            $ie.Navigate(\""

def winScriptB : String := "\")\n            while ($ie.Busy) \x7b Start-Sleep -Milliseconds 100 \x7d\n            for ($i = 0; "

def winScriptC : String := "; $i++) \x7b\n                $ie.ExecWB(6, 2)\n            \x7d\n            Start-Sleep -Seconds 2\n            $ie.Quit()\n            "

/-- Literal chunks of the default-verb PowerShell script
(lines 356-361). -/
def winScriptD : String := "\n            Start-Process -FilePath \""

def winScriptE : String := "\" -Verb Print -Wait\n            "

/-- print_script (lines 336-362): when a printer is targeted, the IE
automation loop with the copies count (default 1) as loop bound; when
no printer is targeted, a Start-Process print verb that ignores the
copies option entirely. The escaped temp-file path is interpolated in
both variants; the printer name itself is never interpolated. -/
def windowsPrintScript (options : PrintOptions) (file_path : String) : String :=
  match options.printer with
  | some _ =>
      winScriptA ++ escapeBackslashes file_path ++ winScriptB ++
        ("$i -lt " ++ toString (options.copies.getD 1)) ++ winScriptC
  | none =>
      winScriptD ++ escapeBackslashes file_path ++ winScriptE

/-- The PrintResult the Windows path builds from the PowerShell output
(lines 373-390): success mirrors the exit status; a failed result's
error is the captured stderr, with a generic fallback substituted when
stderr is empty; job_id is always None on this pathway. -/
def windowsPrintResult (out : ProcOutput) : PrintResult :=
  if out.success then
    { success := true, error := none, job_id := none }
  else
    { success := false
      error := some (if out.stderr == "" then "Print command failed" else out.stderr)
      job_id := none }

/-! ## Temp-file lifecycle traces (print.rs lines 160-233 and 294-391) -/

/-- Filesystem/process events a print call performs, in order. -/
inductive FsEvent where
  | createTemp (path : String)
  | writeTemp (path : String) (content : String)
  | execCommand (prog : String) (args : List String)
  | deleteTemp (path : String)

/-- Environment of one print call: whether the OS grants a temp file
(and its path), whether the payload write succeeds, and the spawn
outcome of the print process (none = spawn failure). -/
structure PrintEnv where
  tempFile : Option String
  writeOk : Bool
  spawnResult : Option ProcOutput

/-- print_html_unix (lines 160-233) as (event trace, returned value).
NamedTempFile is dropped on every return path after its creation, so
each such path ends by deleting the temp file; the lp command is built
from the options and the temp path and executed only after the payload
is written. -/
def print_html_unix (html : String) (options : PrintOptions) (env : PrintEnv) :
    List FsEvent × Except String PrintResult :=
  match env.tempFile with
  | none => ([], Except.error "Failed to create temp file")
  | some path =>
    if env.writeOk then
      match env.spawnResult with
      | none =>
        ([FsEvent.createTemp path, FsEvent.writeTemp path html, FsEvent.deleteTemp path],
         Except.error "Failed to execute lp command")
      | some out =>
        ([FsEvent.createTemp path, FsEvent.writeTemp path html,
          FsEvent.execCommand "lp" (buildLpArgs options path),
          FsEvent.deleteTemp path],
         Except.ok (unixPrintResult out))
    else
      ([FsEvent.createTemp path, FsEvent.deleteTemp path],
       Except.error "Failed to write HTML to temp file")

/-- print_html_windows (lines 294-391) as (event trace, returned
value): the styled HTML is written to the temp file, then PowerShell
runs the generated script; the temp file is dropped on every return
path after its creation. -/
def print_html_windows (html : String) (options : PrintOptions) (env : PrintEnv) :
    List FsEvent × Except String PrintResult :=
  match env.tempFile with
  | none => ([], Except.error "Failed to create temp file")
  | some path =>
    if env.writeOk then
      match env.spawnResult with
      | none =>
        ([FsEvent.createTemp path,
          FsEvent.writeTemp path (windowsStyledHtml html (options.paper_width.getD 80)),
          FsEvent.deleteTemp path],
         Except.error "Failed to execute print command")
      | some out =>
        ([FsEvent.createTemp path,
          FsEvent.writeTemp path (windowsStyledHtml html (options.paper_width.getD 80)),
          FsEvent.execCommand "powershell" ["-Command", windowsPrintScript options path],
          FsEvent.deleteTemp path],
         Except.ok (windowsPrintResult out))
    else
      ([FsEvent.createTemp path, FsEvent.deleteTemp path],
       Except.error "Failed to write HTML to temp file")

/-! ## Trace well-formedness -/

/-- Scan of a trace tracking the currently open temp file: writes and
command executions may happen only while a temp file is open; a second
create while one is open, a leak at end of trace, or a delete of the
wrong path all reject. -/
def tempScan : Option String → List FsEvent → Bool
  | none, [] => true
  | some _, [] => false
  | none, FsEvent.createTemp p :: rest => tempScan (some p) rest
  | none, _ :: _ => false
  | some p, FsEvent.deleteTemp q :: rest => p == q && tempScan none rest
  | some _, FsEvent.createTemp _ :: _ => false
  | some p, _ :: rest => tempScan (some p) rest

/-- A trace is balanced when every created temp file is deleted before
the call returns and all work happens between create and delete. -/
def balancedTemp (tr : List FsEvent) : Bool := tempScan none tr

/-- Recognizer for create events. -/
def isCreateEvent : FsEvent → Bool
  | FsEvent.createTemp _ => true
  | _ => false

/-- Recognizer for delete events. -/
def isDeleteEvent : FsEvent → Bool
  | FsEvent.deleteTemp _ => true
  | _ => false

/-- Number of temp files a trace creates. -/
def countCreates (tr : List FsEvent) : Nat := (tr.filter isCreateEvent).length

/-- Number of temp files a trace deletes. -/
def countDeletes (tr : List FsEvent) : Nat := (tr.filter isDeleteEvent).length

/-! ## Helper lemmas -/

theorem strDataAppend (a b : String) : (a ++ b).data = a.data ++ b.data := by
  cases a
  cases b
  rfl

theorem stringMkNeEmpty {l : List Char} (h : l ≠ []) : String.mk l ≠ "" := by
  intro hc
  exact h (by simpa using congrArg String.data hc)

theorem splitOnChar_eq_single (sep : Char) (l : List Char) (h : sep ∉ l) :
    splitOnChar sep l = [l] := by
  induction l with
  | nil => rfl
  | cons c rest ih =>
    have hc : (c == sep) = false := by
      simp only [beq_eq_false_iff_ne]
      intro hce
      exact h (hce ▸ List.mem_cons_self c rest)
    have hrest : sep ∉ rest := fun hm => h (List.mem_cons_of_mem c hm)
    simp [splitOnChar, hc, ih hrest]

theorem mem_whitespaceTokens_ne_nil {t : List Char} {l : List Char}
    (h : t ∈ whitespaceTokens l) : t ≠ [] := by
  have := (List.mem_filter.mp h).2
  intro hc
  subst hc
  simp at this

theorem afterFirst_eq_none {sep l : List Char} (h : subMatch sep l = false) :
    afterFirst sep l = none := by
  induction l with
  | nil =>
    have : leadMatch sep [] = false := by
      cases sep with
      | nil => simp [subMatch] at h
      | cons a as => rfl
    simp [afterFirst, this]
  | cons c rest ih =>
    have h1 : leadMatch sep (c :: rest) = false := by
      simp [subMatch] at h
      exact h.1
    have h2 : subMatch sep rest = false := by
      simp [subMatch] at h
      exact h.2
    simp [afterFirst, h1, ih h2]

/-! ## Claims -/

/-- C1 counterexample: on the Unix path a process that exits nonzero
with empty stderr yields a failed result whose error is Some "" (the
empty string): the raw stderr is used with no fallback substitution,
contradicting the claim that a failed result's error is always a
non-empty string. -/
theorem C1_counterexample :
    (unixPrintResult { success := false, stdout := "", stderr := "" }).success = false ∧
    (unixPrintResult { success := false, stdout := "", stderr := "" }).error = some "" :=
  ⟨rfl, rfl⟩

/-- C1 (amended): a submission's result success mirrors the process
exit status on both paths; on zero exit the error is None; on nonzero
exit the Windows path reports stderr with a generic fallback when
stderr is empty (so its error is never Some ""), while the Unix path
reports the raw stderr, which is the empty string when stderr is
empty. -/
theorem C1_exit_status_determines_result (out : ProcOutput) :
    (unixPrintResult out).success = out.success ∧
    (windowsPrintResult out).success = out.success ∧
    (unixPrintResult out).error = (if out.success then none else some out.stderr) ∧
    (windowsPrintResult out).error
      = (if out.success then none
         else some (if out.stderr == "" then "Print command failed" else out.stderr)) ∧
    (windowsPrintResult out).error ≠ some "" := by
  obtain ⟨s, o, e⟩ := out
  cases s
  · refine ⟨rfl, rfl, rfl, rfl, ?_⟩
    by_cases he : e = ""
    · subst he
      simp [windowsPrintResult]
    · have hb : (e == "") = false := beq_eq_false_iff_ne.mpr he
      simp [windowsPrintResult, hb, he]
  · exact ⟨rfl, rfl, rfl, rfl, by simp [windowsPrintResult]⟩

/-- C2: on both platform paths, a result with success = false always
carries job_id = None. -/
theorem C2_failed_result_has_no_job_id (out : ProcOutput) :
    ((unixPrintResult out).success = false → (unixPrintResult out).job_id = none) ∧
    ((windowsPrintResult out).success = false → (windowsPrintResult out).job_id = none) := by
  obtain ⟨s, o, e⟩ := out
  cases s
  · exact ⟨fun _ => rfl, fun _ => rfl⟩
  · exact ⟨fun h => Bool.noConfusion h, fun h => Bool.noConfusion h⟩

/-- C2 witness at a concrete failed output. -/
theorem C2_witness :
    (unixPrintResult { success := false, stdout := "", stderr := "boom" }).job_id = none ∧
    (windowsPrintResult { success := false, stdout := "", stderr := "boom" }).job_id = none :=
  ⟨(C2_failed_result_has_no_job_id { success := false, stdout := "", stderr := "boom" }).1 rfl,
   (C2_failed_result_has_no_job_id { success := false, stdout := "", stderr := "boom" }).2 rfl⟩

/-- Whether the Windows enumeration environment makes the pipeline
fail: spawn failure, nonzero exit status, or non-empty output on which
both JSON parse attempts fail. -/
def winEnumFails (env : WinEnumEnv) : Bool :=
  match env.spawn with
  | none => true
  | some out =>
    !out.success ||
      (!(trimChars out.stdout.data).isEmpty && (env.parseArray out.stdout).isNone &&
        (env.parseSingle out.stdout).isNone)

/-- C3 counterexample: on Windows, an enumeration whose PowerShell
process spawns and produces parseable output but exits nonzero returns
an Error, although the claim allows an Error only for spawn failure or
unparseable output. -/
theorem C3_counterexample :
    get_printers_windows
      { spawn := some { success := false, stdout := "[]", stderr := "boom" }
        parseArray := fun _ => some []
        parseSingle := fun _ => none }
      = Except.error "PowerShell command failed: boom" := rfl

/-- C3 (amended): Unix enumeration returns Ok whenever both lpstat
invocations spawn (exit status and output shape never cause an Error),
and Ok [] when the listing output is empty; Windows enumeration
returns Ok [] when the process succeeds with blank output, and returns
an Error exactly when the process cannot be spawned, exits nonzero, or
produces non-blank output both JSON parse attempts reject. -/
theorem C3_enumeration_error_conditions (d p : ProcOutput) (env : WinEnumEnv) :
    (∃ l, get_printers_unix (some d) (some p) = Except.ok l) ∧
    get_printers_unix (some d) (some { success := p.success, stdout := "", stderr := p.stderr })
      = Except.ok [] ∧
    get_printers_windows
        { env with spawn := some { success := true, stdout := "", stderr := "" } }
      = Except.ok [] ∧
    exceptIsErr (get_printers_windows env) = winEnumFails env := by
  refine ⟨⟨_, rfl⟩, rfl, rfl, ?_⟩
  obtain ⟨sp, pa, ps⟩ := env
  cases sp with
  | none => rfl
  | some out =>
    obtain ⟨s, o, e⟩ := out
    cases s
    · rfl
    · cases ht : (trimChars o.data).isEmpty
      · cases hpa : pa o
        · cases hps : ps o
          · simp [get_printers_windows, winEnumFails, exceptIsErr, ht, hpa, hps]
          · simp [get_printers_windows, winEnumFails, exceptIsErr, ht, hpa, hps]
        · simp [get_printers_windows, winEnumFails, exceptIsErr, ht, hpa]
      · simp [get_printers_windows, winEnumFails, exceptIsErr, ht]

/-- C9: the silent option is never read on either platform path: two
requests differing only in silent produce the same event trace, the
same built command or script, and the same returned result. -/
theorem C9_silent_never_influences (html : String) (p : Option String) (c : Option Nat)
    (s1 s2 : Option Bool) (w : Option Nat) (env : PrintEnv) :
    print_html_unix html { printer := p, copies := c, silent := s1, paper_width := w } env
      = print_html_unix html { printer := p, copies := c, silent := s2, paper_width := w } env ∧
    print_html_windows html { printer := p, copies := c, silent := s1, paper_width := w } env
      = print_html_windows html { printer := p, copies := c, silent := s2, paper_width := w } env :=
  ⟨rfl, rfl⟩

/-- C10: when the default-printer query output contains no colon, the
parsed default-printer name is the empty string; and since every
parsed printer name is a non-empty whitespace token, no printer
enumerated from the listing output is flagged as default. -/
theorem C10_no_colon_no_default (d p : ProcOutput) (h : ':' ∉ d.stdout.data) :
    parseDefaultPrinter d.stdout = "" ∧
    ∀ l, get_printers_unix (some d) (some p) = Except.ok l →
      ∀ info ∈ l, info.is_default = false := by
  have hdef : parseDefaultPrinter d.stdout = "" := by
    unfold parseDefaultPrinter
    rw [splitOnChar_eq_single ':' d.stdout.data h]
    rfl
  refine ⟨hdef, ?_⟩
  intro l hl info hinfo
  simp only [get_printers_unix, Except.ok.injEq] at hl
  subst hl
  rw [hdef] at hinfo
  obtain ⟨line, hline, hparse⟩ := List.mem_filterMap.mp hinfo
  unfold parsePrinterLine at hparse
  split at hparse
  · split at hparse
    · rename_i hd nameChars tl heq
      have hmem : nameChars ∈ whitespaceTokens line.data := by
        rw [heq]
        exact List.mem_cons_of_mem _ (List.mem_cons_self _ _)
      have hne : nameChars ≠ [] := mem_whitespaceTokens_ne_nil hmem
      have hinj := hparse
      injection hinj with h2
      rw [← h2]
      exact beq_eq_false_iff_ne.mpr (stringMkNeEmpty hne)
    · simp at hparse
  · simp at hparse

/-- C10 witness: a concrete colon-free default query with one printer
line; the enumerated printer is not flagged default. -/
theorem C10_witness :
    parseDefaultPrinter "no system default destination" = "" ∧
    PrinterInfo.is_default
        { name := "Receipt", is_default := false, description := none, status := some "idle" }
      = false :=
  ⟨(C10_no_colon_no_default
      { success := true, stdout := "no system default destination", stderr := "" }
      { success := true, stdout := "printer Receipt is idle.  enabled since Mon\n", stderr := "" }
      (by decide)).1,
   (C10_no_colon_no_default
      { success := true, stdout := "no system default destination", stderr := "" }
      { success := true, stdout := "printer Receipt is idle.  enabled since Mon\n", stderr := "" }
      (by decide)).2
     [{ name := "Receipt", is_default := false, description := none, status := some "idle" }]
     rfl
     { name := "Receipt", is_default := false, description := none, status := some "idle" }
     (List.mem_singleton.mpr rfl)⟩

/-- The job-id reading described by the claim's words, stated
independently of the code: the first whitespace-delimited token of all
the text following the first occurrence of the marker in stdout. -/
def claimJobId (stdout : String) : Option String :=
  (afterFirst unixJobIdMarker stdout.data).bind
    (fun rem => ((whitespaceTokens rem).head?).map String.mk)

/-- C8 counterexample: when the marker occurs twice in a row, the code
takes the first token of the segment strictly between the first and
second occurrences, which is empty, so job_id is None; the claim's
reading (first whitespace token following the marker) would give
"request". -/
theorem C8_counterexample :
    (unixPrintResult
        { success := true, stdout := "request id is request id is X\n", stderr := "" }).job_id
      = none ∧
    claimJobId "request id is request id is X\n" = some "request" :=
  ⟨rfl, rfl⟩

/-- C8 (amended): on a successful Unix submission, job_id is the first
whitespace-delimited token of the text strictly between the first
occurrence of "request id is " in stdout and the next occurrence (or
end of output); when the marker is absent, job_id is None (not an
error), as on the canonical lp output shown concretely. -/
theorem C8_job_id_extraction (out : ProcOutput) (h : out.success = true)
    (hm : subMatch unixJobIdMarker out.stdout.data = false) :
    (unixPrintResult out).job_id = none ∧
    (unixPrintResult
        { success := true, stdout := "request id is Receipt-42 (1 file(s))\n", stderr := "" }).job_id
      = some "Receipt-42" := by
  constructor
  · have hj : extractJobId out.stdout = none := by
      unfold extractJobId
      rw [afterFirst_eq_none hm]
      rfl
    simp [unixPrintResult, h, hj]
  · rfl

/-- C8 witness: a concrete marker-free stdout. -/
theorem C8_witness :
    (unixPrintResult { success := true, stdout := "lp: ok\n", stderr := "" }).job_id = none ∧
    (unixPrintResult
        { success := true, stdout := "request id is Receipt-42 (1 file(s))\n", stderr := "" }).job_id
      = some "Receipt-42" :=
  C8_job_id_extraction { success := true, stdout := "lp: ok\n", stderr := "" } rfl (by decide)

/-- Runs of backslashes all have even length: scanning left to right,
every backslash is immediately paired with a following backslash, so
no lone backslash can escape a following script character. -/
def backslashRunsEven : List Char → Bool
  | [] => true
  | c :: rest =>
    if c == '\\' then
      match rest with
      | [] => false
      | d :: rest2 => if d == '\\' then backslashRunsEven rest2 else false
    else backslashRunsEven rest

theorem backslashRunsEven_cons_ne (c : Char) (l : List Char) (h : (c == '\\') = false) :
    backslashRunsEven (c :: l) = backslashRunsEven l := by
  cases l <;> simp [backslashRunsEven, h]

theorem backslashRunsEven_escChars (l : List Char) :
    backslashRunsEven (escChars l) = true := by
  induction l with
  | nil => rfl
  | cons c rest ih =>
    by_cases hc : c = '\\'
    · subst hc
      have hesc : escChars ('\\' :: rest) = '\\' :: '\\' :: escChars rest := rfl
      rw [hesc]
      simpa [backslashRunsEven] using ih
    · have hb : (c == '\\') = false := beq_eq_false_iff_ne.mpr hc
      have hesc : escChars (c :: rest) = c :: escChars rest := by
        simp [escChars, hb]
      rw [hesc, backslashRunsEven_cons_ne c _ hb]
      exact ih

/-- C7: for every path, both variants of the generated Windows script
contain the backslash-doubled form of the path, and in that doubled
form every backslash run has even length, so no single unescaped
backslash from the path reaches the script. -/
theorem C7_backslashes_doubled (options : PrintOptions) (path : String) :
    (∃ pre suf, (windowsPrintScript options path).data
        = pre ++ (escapeBackslashes path).data ++ suf) ∧
    backslashRunsEven (escapeBackslashes path).data = true := by
  constructor
  · cases hp : options.printer with
    | some name =>
      refine ⟨winScriptA.data,
        winScriptB.data ++ ("$i -lt " ++ toString (options.copies.getD 1)).data
          ++ winScriptC.data, ?_⟩
      simp [windowsPrintScript, hp, strDataAppend, List.append_assoc]
    | none =>
      refine ⟨winScriptD.data, winScriptE.data, ?_⟩
      simp [windowsPrintScript, hp, strDataAppend, List.append_assoc]
  · exact backslashRunsEven_escChars path.data

set_option maxRecDepth 8000 in
/-- C4 counterexample: on the Windows printer-targeted path the copies
count is always interpolated into the script; with copies = 1 the
script still carries the loop bound "$i -lt 1" (a copies directive
although copies is not greater than 1), and requests with copies = 0
and copies = 1 build different scripts, so values at most 1 are not
normalized to one copy by omission. -/
theorem C4_counterexample :
    subMatch "$i -lt 1".data
        (windowsPrintScript
          { printer := some "HP", copies := some 1, silent := some true, paper_width := some 80 }
          "C:\\receipt.html").data = true ∧
    windowsPrintScript
        { printer := some "HP", copies := some 0, silent := some true, paper_width := some 80 }
        "C:\\receipt.html"
      ≠ windowsPrintScript
        { printer := some "HP", copies := some 1, silent := some true, paper_width := some 80 }
        "C:\\receipt.html" :=
  ⟨by decide, by decide⟩

/-- C4 (amended): on Unix the lp copies directive ["-n", count] is
emitted iff the requested copies value exceeds 1, and an omitted
copies value emits nothing; on Windows with a target printer the
requested copies value (default 1) is always interpolated into the
script's loop bound, whatever its value, and with no target printer
the copies value is ignored entirely. -/
theorem C4_copies_directive (p : Option String) (s : Option Bool) (w : Option Nat)
    (c : Nat) (path : String) :
    ("-n" ∈ lpCopiesArgs { printer := p, copies := some c, silent := s, paper_width := w }
      ↔ 1 < c) ∧
    lpCopiesArgs { printer := p, copies := none, silent := s, paper_width := w } = [] ∧
    lpCopiesArgs { printer := p, copies := some 3, silent := s, paper_width := w }
      = ["-n", "3"] ∧
    (∃ pre suf,
      (windowsPrintScript
          { printer := some "HP", copies := some c, silent := s, paper_width := w } path).data
        = pre ++ ("$i -lt " ++ toString c).data ++ suf) ∧
    windowsPrintScript { printer := none, copies := some c, silent := s, paper_width := w } path
      = windowsPrintScript { printer := none, copies := some 1, silent := s, paper_width := w }
          path := by
  refine ⟨?_, ?_, ?_, ?_, ?_⟩
  · by_cases h : 1 < c
    · simp [lpCopiesArgs, h]
    · simp [lpCopiesArgs, h]
  · rfl
  · simp [lpCopiesArgs]
    rfl
  · refine ⟨winScriptA.data ++ (escapeBackslashes path).data ++ winScriptB.data,
      winScriptC.data, ?_⟩
    simp [windowsPrintScript, strDataAppend, List.append_assoc]
  · rfl

set_option maxRecDepth 8000 in
/-- C5 counterexample: on Windows a request with paper width 100
embeds the width-specific media directive "size: 100mm auto" in the
styled payload rather than falling back to the printer's default
media; nonstandard widths 100 and 120 produce different payloads. -/
theorem C5_counterexample :
    subMatch "size: 100mm auto".data (windowsStyledHtml "<p>x</p>" 100).data = true ∧
    windowsStyledHtml "<p>x</p>" 100 ≠ windowsStyledHtml "<p>x</p>" 120 :=
  ⟨by decide, by decide⟩

/-- C5 (amended): on Unix, width 80 (or omitted) selects the fixed
80mm media directive, width 58 the fixed 58mm directive, and any other
width emits no media argument; on Windows the requested width is
always embedded in the page-size CSS of the styled payload, whatever
its value. -/
theorem C5_media_selection (p : Option String) (c : Option Nat) (s : Option Bool)
    (w : Nat) (html : String) :
    lpMediaArgs { printer := p, copies := c, silent := s, paper_width := some 80 }
      = ["-o", "media=Custom.80x200mm"] ∧
    lpMediaArgs { printer := p, copies := c, silent := s, paper_width := none }
      = ["-o", "media=Custom.80x200mm"] ∧
    lpMediaArgs { printer := p, copies := c, silent := s, paper_width := some 58 }
      = ["-o", "media=Custom.58x200mm"] ∧
    (w ≠ 80 → w ≠ 58 →
      lpMediaArgs { printer := p, copies := c, silent := s, paper_width := some w } = []) ∧
    (∃ pre suf, (windowsStyledHtml html w).data
        = pre ++ ("size: " ++ toString w ++ "mm auto").data ++ suf) := by
  refine ⟨?_, ?_, ?_, ?_, ?_⟩
  · rfl
  · rfl
  · rfl
  · intro h80 h58
    have b80 : (w == 80) = false := beq_eq_false_iff_ne.mpr h80
    have b58 : (w == 58) = false := beq_eq_false_iff_ne.mpr h58
    simp [lpMediaArgs, b80, b58]
  · refine ⟨"<!DOCTYPE html>\n<html>\n<head>\n<style>\n@page \x7b\n    ".data,
      ";\n    margin: 0;\n\x7d\n@media print \x7b\n    body \x7b\n        width: ".data
        ++ (toString w).data ++ winHtmlC.data ++ html.data ++ winHtmlD.data, ?_⟩
    have hA : winHtmlA.data
        = "<!DOCTYPE html>\n<html>\n<head>\n<style>\n@page \x7b\n    ".data
            ++ "size: ".data := rfl
    have hB : winHtmlB.data
        = "mm auto".data
            ++ ";\n    margin: 0;\n\x7d\n@media print \x7b\n    body \x7b\n        width: ".data :=
      rfl
    simp [windowsStyledHtml, strDataAppend, hA, hB, List.append_assoc]

/-- C5 witness: paper width 100 emits no Unix media argument. -/
theorem C5_witness :
    lpMediaArgs { printer := none, copies := none, silent := none, paper_width := some 100 }
      = [] :=
  (C5_media_selection none none none 100 "").2.2.2.1 (by decide) (by decide)

/-- C6: on both platform paths the event trace of a print call is
balanced: at most one temp file is created, a temp file is created
exactly when the OS grants one, every created file is deleted before
the call returns on every return path, and all writes and command
executions happen while the file exists. -/
theorem C6_temp_file_lifecycle (html : String) (options : PrintOptions) (env : PrintEnv) :
    (balancedTemp (print_html_unix html options env).1 = true ∧
     countCreates (print_html_unix html options env).1
        = (if env.tempFile.isSome then 1 else 0) ∧
     countDeletes (print_html_unix html options env).1
        = countCreates (print_html_unix html options env).1) ∧
    (balancedTemp (print_html_windows html options env).1 = true ∧
     countCreates (print_html_windows html options env).1
        = (if env.tempFile.isSome then 1 else 0) ∧
     countDeletes (print_html_windows html options env).1
        = countCreates (print_html_windows html options env).1) := by
  obtain ⟨tf, wOk, sp⟩ := env
  cases tf <;> cases wOk <;> cases sp <;>
    simp [print_html_unix, print_html_windows, balancedTemp, tempScan, countCreates,
      countDeletes, isCreateEvent, isDeleteEvent]
